import Mathlib

/-!
Shallow embedding of the rclrs logging subsystem
(src/rclrs/src/log/mod.rs and src/rclrs/src/log/log_context.rs).

The Rust code guards a process-global `Option<LogContext>` behind a mutex and
forwards to the foreign rcl/rcutils logging primitives.  We model each public
operation as a pure function from an explicit state to an outcome, a new
state, and a trace of events (lock acquisitions/releases, foreign calls,
location-descriptor allocation and deallocation).  The mutex linearizes all
operations, so concurrent executions of the real code correspond to
sequential compositions of these functions; Rust mutex poisoning is modelled
by a `poisoned` flag, and a panic while holding the lock sets it.
-/

namespace RclrsLog

/-- Log severity, from `LogSeverity` in src/rclrs/src/log/mod.rs: the five
variants Debug, Info, Warn, Error, Fatal, in source order. -/
inductive LogSeverity where
  | Debug
  | Info
  | Warn
  | Error
  | Fatal
deriving DecidableEq, Repr, Fintype

/-- Position of a severity in the declared order Debug, Info, Warn, Error, Fatal. -/
def sevRank : LogSeverity → Nat
  | .Debug => 0
  | .Info => 1
  | .Warn => 2
  | .Error => 3
  | .Fatal => 4

/-- Modelled from the spec: the numeric severity codes of the foreign
subsystem (`RCUTILS_LOG_SEVERITY` in the generated rcl_bindings, which are
not part of src/).  The spec requires a fixed ordered set mapped one-to-one
onto the foreign codes with Debug < Info < Warn < Error < Fatal; the rcutils
convention spaces the codes as 10, 20, 30, 40, 50. -/
def severityCode : LogSeverity → Nat
  | .Debug => 10
  | .Info => 20
  | .Warn => 30
  | .Error => 40
  | .Fatal => 50

/-- A Rust string argument, modelled as its byte sequence.  `CString::new`
fails exactly when the bytes contain an embedded null. -/
def hasNulByte (s : List Nat) : Bool := s.contains 0

/-- A foreign error code (`RclrsError` is opaque to this subsystem). -/
abbrev RclErr := Nat

/-- The transient location descriptor (`rcutils_log_location_t`) built by
`LogContext::log`: function name, file name, line number. -/
structure rcutils_log_location_t where
  function_name : List Nat
  file_name : List Nat
  line_number : Nat
deriving DecidableEq, Repr

/-- Observable events of one operation: lock movements on the global
log-state mutex and on the external rcl-context mutex, foreign calls, and
the allocation / deallocation of the location descriptor. -/
inductive Event where
  | acquireState
  | releaseState
  | acquireContext
  | releaseContext
  | allocLoc (loc : rcutils_log_location_t)
  | freeLoc (loc : rcutils_log_location_t)
  | rcl_logging_configure
  | rcl_logging_fini
  | rcutils_logging_set_logger_level (name : List Nat) (code : Nat)
  | rcutils_log (loc : rcutils_log_location_t) (code : Nat)
      (name : List Nat) (message : List Nat)
deriving DecidableEq, Repr

/-- Whether an event is a call into the foreign logging capability. -/
def Event.isForeign : Event → Bool
  | .rcl_logging_configure => true
  | .rcl_logging_fini => true
  | .rcutils_logging_set_logger_level _ _ => true
  | .rcutils_log _ _ _ _ => true
  | _ => false

/-- The foreign calls contained in a trace, in order. -/
def foreignCalls (t : List Event) : List Event := t.filter Event.isForeign

/-- Number of foreign configure invocations in a trace. -/
def configureCount (t : List Event) : Nat := t.count Event.rcl_logging_configure

/-- How an operation ends: normal return, error return, or a Rust panic
(`unwrap` on a failed conversion or on a poisoned mutex). -/
inductive Outcome where
  | ok
  | err (e : RclErr)
  | panicked
deriving DecidableEq, Repr

/-- The global log state (`GLOBAL_LOG_CONTEXT : Mutex<Option<LogContext>>`):
whether the option is `Some` (logging configured), plus the mutex poison
flag that Rust sets when a panic unwinds while the lock is held. -/
structure LogState where
  initialized : Bool
  poisoned : Bool
deriving DecidableEq, Repr

/-- Result of one operation: its outcome, the new global state, and the
trace of events it produced. -/
structure OpResult where
  outcome : Outcome
  state : LogState
  trace : List Event
deriving DecidableEq, Repr

/-- `LogContext::init` from src/rclrs/src/log/log_context.rs.  Takes the
state lock; if already initialized returns `Ok` at once; otherwise takes the
rcl-context lock, calls `rcl_logging_configure_with_output_handler` (whose
verdict is the `configure_result` oracle), releases the context lock, and on
success marks the state initialized.  `.ok()?` propagates a configure error
verbatim. -/
def LogContext.init (configure_result : Except RclErr Unit) (s : LogState) : OpResult :=
  if s.poisoned then
    ⟨.panicked, s, [.acquireState, .releaseState]⟩
  else if s.initialized then
    ⟨.ok, s, [.acquireState, .releaseState]⟩
  else
    match configure_result with
    | .ok _ =>
        ⟨.ok, { s with initialized := true },
          [.acquireState, .acquireContext, .rcl_logging_configure,
           .releaseContext, .releaseState]⟩
    | .error e =>
        ⟨.err e, s,
          [.acquireState, .acquireContext, .rcl_logging_configure,
           .releaseContext, .releaseState]⟩

/-- `impl Drop for LogContext` from src/rclrs/src/log/log_context.rs.  Takes
the state lock; if the option is `None` it returns silently; otherwise it
calls `rcl_logging_fini`, discards its result (`let _unused = ... .ok();`),
and sets the option to `None`. -/
def LogContext.drop (finalize_result : Except RclErr Unit) (s : LogState) : OpResult :=
  if s.poisoned then
    ⟨.panicked, s, [.acquireState, .releaseState]⟩
  else if !s.initialized then
    ⟨.ok, s, [.acquireState, .releaseState]⟩
  else
    match finalize_result with
    | _ =>
        ⟨.ok, { s with initialized := false },
          [.acquireState, .rcl_logging_fini, .releaseState]⟩

/-- `LogContext::set_logger_level` from src/rclrs/src/log/log_context.rs.
Takes the state lock (without inspecting the option), converts the name with
`CString::new(..).unwrap()` — which panics on an embedded null, poisoning the
mutex — and then calls `rcutils_logging_set_logger_level`, whose verdict is
the `foreign_result` oracle, surfaced via `.ok()`. -/
def LogContext.set_logger_level (logger_name : List Nat) (severity : LogSeverity)
    (foreign_result : Except RclErr Unit) (s : LogState) : OpResult :=
  if s.poisoned then
    ⟨.panicked, s, [.acquireState, .releaseState]⟩
  else if hasNulByte logger_name then
    ⟨.panicked, { s with poisoned := true }, [.acquireState, .releaseState]⟩
  else
    match foreign_result with
    | .ok _ =>
        ⟨.ok, s,
          [.acquireState,
           .rcutils_logging_set_logger_level logger_name (severityCode severity),
           .releaseState]⟩
    | .error e =>
        ⟨.err e, s,
          [.acquireState,
           .rcutils_logging_set_logger_level logger_name (severityCode severity),
           .releaseState]⟩

/-- `LogContext::log` from src/rclrs/src/log/log_context.rs.  Takes the
state lock; returns silently if the option is `None` (before any string
conversion); otherwise converts `fn_name` and `file_name`, heap-allocates a
`rcutils_log_location_t` via `Box::into_raw`, converts `name` and `message`,
calls `rcutils_log`, and immediately reclaims the location box with
`Box::from_raw`.  Each `.unwrap()` panics on an embedded null, poisoning the
mutex; a panic after `Box::into_raw` leaks the descriptor (no free event). -/
def LogContext.log (fn_name file_name : List Nat) (line_num : Nat)
    (name : List Nat) (severity : LogSeverity) (message : List Nat)
    (s : LogState) : OpResult :=
  if s.poisoned then
    ⟨.panicked, s, [.acquireState, .releaseState]⟩
  else if !s.initialized then
    ⟨.ok, s, [.acquireState, .releaseState]⟩
  else if hasNulByte fn_name || hasNulByte file_name then
    ⟨.panicked, { s with poisoned := true }, [.acquireState, .releaseState]⟩
  else
    if hasNulByte name || hasNulByte message then
      ⟨.panicked, { s with poisoned := true },
        [.acquireState, .allocLoc ⟨fn_name, file_name, line_num⟩, .releaseState]⟩
    else
      ⟨.ok, s,
        [.acquireState,
         .allocLoc ⟨fn_name, file_name, line_num⟩,
         .rcutils_log ⟨fn_name, file_name, line_num⟩ (severityCode severity) name message,
         .freeLoc ⟨fn_name, file_name, line_num⟩,
         .releaseState]⟩

/-- Sequential composition of `LogContext.init` calls (the mutex linearizes
concurrent callers): the list of outcomes, the final state, and the
concatenated trace. -/
def runInits : List (Except RclErr Unit) → LogState → List Outcome × LogState × List Event
  | [], s => ([], s, [])
  | r :: rs, s =>
    let step := LogContext.init r s
    let rest := runInits rs step.state
    (step.outcome :: rest.1, rest.2.1, step.trace ++ rest.2.2)

/-- Whether an event touches the given location descriptor. -/
def usesLoc (loc : rcutils_log_location_t) : Event → Bool
  | .allocLoc l => l == loc
  | .freeLoc l => l == loc
  | .rcutils_log l _ _ _ => l == loc
  | _ => false

/-- Every `rcutils_log` carrying `loc` is immediately followed by the free of
`loc`, and no event after that free mentions `loc` again. -/
def freedImmediatelyAndUnused (loc : rcutils_log_location_t) : List Event → Bool
  | [] => true
  | .rcutils_log l _ _ _ :: rest =>
      if l == loc then
        match rest with
        | .freeLoc l2 :: rest2 =>
            l2 == loc && rest2.all (fun e => !usesLoc loc e)
              && freedImmediatelyAndUnused loc rest2
        | _ => false
      else freedImmediatelyAndUnused loc rest
  | _ :: rest => freedImmediatelyAndUnused loc rest

/-- Lock-discipline checker: running state (stateHeld, contextHeld).  The
context lock may only be acquired while the state lock is held, the state
lock may only be released after the context lock, and a trace must end with
both locks released. -/
def locksOk : List Event → Bool → Bool → Bool
  | [], sh, ch => !sh && !ch
  | .acquireState :: t, sh, ch => !sh && locksOk t true ch
  | .releaseState :: t, sh, ch => sh && !ch && locksOk t false ch
  | .acquireContext :: t, sh, ch => sh && !ch && locksOk t sh true
  | .releaseContext :: t, sh, ch => ch && locksOk t sh false
  | _ :: t, sh, ch => locksOk t sh ch

/-- Whether a trace contains any context-lock event at all. -/
def noContextLock (t : List Event) : Bool :=
  t.all fun e =>
    match e with
    | .acquireContext => false
    | .releaseContext => false
    | _ => true

/-- From the initialized unpoisoned state, any sequence of init calls keeps
the state fixed, succeeds everywhere, and performs no configure call. -/
theorem runInits_initialized (rs : List (Except RclErr Unit)) :
    (∀ o ∈ (runInits rs ⟨true, false⟩).1, o = Outcome.ok)
    ∧ (runInits rs ⟨true, false⟩).2.1 = ⟨true, false⟩
    ∧ configureCount (runInits rs ⟨true, false⟩).2.2 = 0 := by
  induction rs with
  | nil => simp [runInits, configureCount]
  | cons r rs ih =>
    obtain ⟨ih1, ih2, ih3⟩ := ih
    simp only [runInits, LogContext.init, Bool.false_eq_true, if_false, if_true,
      configureCount, List.count_append] at *
    refine ⟨?_, ih2, ?_⟩
    · intro o ho
      rcases List.mem_cons.mp ho with h | h
      · exact h
      · exact ih1 o h
    · simp [List.count_cons, ih3]

/-- C1: when the global log state is already Initialized, init returns
success immediately with no foreign call and no state change; and across any
sequence of init calls that starts with one successful configure, every call
returns success and exactly one foreign configure invocation occurs in the
combined trace. -/
theorem C1_init_idempotent (r : Except RclErr Unit) (rs : List (Except RclErr Unit)) :
    ((LogContext.init r ⟨true, false⟩).outcome = Outcome.ok
      ∧ foreignCalls (LogContext.init r ⟨true, false⟩).trace = []
      ∧ (LogContext.init r ⟨true, false⟩).state = ⟨true, false⟩)
    ∧ (∀ o ∈ (runInits (Except.ok () :: rs) ⟨false, false⟩).1, o = Outcome.ok)
    ∧ configureCount (runInits (Except.ok () :: rs) ⟨false, false⟩).2.2 = 1 := by
  obtain ⟨h1, h2, h3⟩ := runInits_initialized rs
  refine ⟨?_, ?_, ?_⟩
  · simp [LogContext.init, foreignCalls, Event.isForeign]
  · intro o ho
    simp only [runInits, LogContext.init, Bool.false_eq_true, if_false, if_true] at ho
    rcases List.mem_cons.mp ho with h | h
    · exact h
    · exact h1 o h
  · simp only [runInits, LogContext.init, Bool.false_eq_true, if_false, if_true,
      configureCount, List.count_append] at *
    simp [List.count_cons, h3]

/-- C3: emit while Uninitialized is a silent no-op for every input,
including strings with embedded null bytes and the maximum u32 line number:
no foreign call, no panic, no error, no state change. -/
theorem C3_uninit_emit_noop (fn file : List Nat) (line : Nat) (name : List Nat)
    (sev : LogSeverity) (msg : List Nat) (_hline : line < 2 ^ 32) :
    (LogContext.log fn file line name sev msg ⟨false, false⟩).outcome = Outcome.ok
    ∧ foreignCalls (LogContext.log fn file line name sev msg ⟨false, false⟩).trace = []
    ∧ (LogContext.log fn file line name sev msg ⟨false, false⟩).state = ⟨false, false⟩ := by
  simp [LogContext.log, foreignCalls, Event.isForeign]

/-- Witness for C3 at strings full of embedded nulls and the maximum u32
line number. -/
theorem C3_uninit_emit_noop_witness :
    (LogContext.log [0] [102, 0] 4294967295 [] LogSeverity.Fatal [0]
        ⟨false, false⟩).outcome = Outcome.ok
    ∧ foreignCalls (LogContext.log [0] [102, 0] 4294967295 [] LogSeverity.Fatal [0]
        ⟨false, false⟩).trace = []
    ∧ (LogContext.log [0] [102, 0] 4294967295 [] LogSeverity.Fatal [0]
        ⟨false, false⟩).state = ⟨false, false⟩ :=
  C3_uninit_emit_noop [0] [102, 0] 4294967295 [] LogSeverity.Fatal [0] (by norm_num)

/-- C4: guard destruction on an already-Uninitialized state makes no foreign
call and leaves the state alone; otherwise it calls the foreign finalize
exactly once, swallows any finalize error (the outcome is success for every
finalize verdict), and sets the state to Uninitialized. -/
theorem C4_drop_idempotent_finalize (fr : Except RclErr Unit) (s : LogState)
    (hp : s.poisoned = false) :
    (LogContext.drop fr s).outcome = Outcome.ok
    ∧ (s.initialized = false →
        foreignCalls (LogContext.drop fr s).trace = [] ∧ (LogContext.drop fr s).state = s)
    ∧ (s.initialized = true →
        foreignCalls (LogContext.drop fr s).trace = [Event.rcl_logging_fini]
          ∧ (LogContext.drop fr s).state = ⟨false, false⟩) := by
  obtain ⟨i, p⟩ := s
  simp only at hp
  subst hp
  cases i <;> cases fr <;> simp [LogContext.drop, foreignCalls, Event.isForeign]

/-- Witness for C4: destruction with a failing finalize from the initialized
state still succeeds, with exactly one finalize call. -/
theorem C4_drop_idempotent_finalize_witness :
    (LogContext.drop (Except.error 7) ⟨true, false⟩).outcome = Outcome.ok
    ∧ ((⟨true, false⟩ : LogState).initialized = false →
        foreignCalls (LogContext.drop (Except.error 7) ⟨true, false⟩).trace = []
          ∧ (LogContext.drop (Except.error 7) ⟨true, false⟩).state = ⟨true, false⟩)
    ∧ ((⟨true, false⟩ : LogState).initialized = true →
        foreignCalls (LogContext.drop (Except.error 7) ⟨true, false⟩).trace
            = [Event.rcl_logging_fini]
          ∧ (LogContext.drop (Except.error 7) ⟨true, false⟩).state = ⟨false, false⟩) :=
  C4_drop_idempotent_finalize (Except.error 7) ⟨true, false⟩ rfl

/-- C5: when the foreign configure call fails, init surfaces exactly that
error and leaves the state Uninitialized. -/
theorem C5_init_failure_atomic (e : RclErr) :
    (LogContext.init (Except.error e) ⟨false, false⟩).outcome = Outcome.err e
    ∧ (LogContext.init (Except.error e) ⟨false, false⟩).state = ⟨false, false⟩ := by
  simp [LogContext.init]

/-- C9: the severity enumeration has exactly five values, Debug, Info, Warn,
Error, Fatal in that order, the mapping onto the foreign codes is injective
(one-to-one, no reordering, no extra levels), and it strictly preserves the
order Debug < Info < Warn < Error < Fatal. -/
theorem C9_severity_enum :
    Fintype.card LogSeverity = 5
    ∧ (∀ sv : LogSeverity,
        sv = LogSeverity.Debug ∨ sv = LogSeverity.Info ∨ sv = LogSeverity.Warn
          ∨ sv = LogSeverity.Error ∨ sv = LogSeverity.Fatal)
    ∧ Function.Injective severityCode
    ∧ (∀ a b : LogSeverity, sevRank a < sevRank b ↔ severityCode a < severityCode b) := by
  refine ⟨by decide, by decide, ?_, by decide⟩
  intro a b hab
  revert hab
  cases a <;> cases b <;> decide

/-- C2: emit while Initialized, with no argument containing an embedded null
byte, performs exactly one foreign emit call whose location descriptor holds
exactly the given function name, file name and line number, with the mapped
severity code, the given logger name, and the given message; and the
location descriptor is freed immediately after the foreign call returns and
is never used afterward in the trace. -/
theorem C2_emit_initialized (fn file : List Nat) (line : Nat) (name : List Nat)
    (sev : LogSeverity) (msg : List Nat)
    (hfn : hasNulByte fn = false) (hfile : hasNulByte file = false)
    (hname : hasNulByte name = false) (hmsg : hasNulByte msg = false) :
    (LogContext.log fn file line name sev msg ⟨true, false⟩).outcome = Outcome.ok
    ∧ foreignCalls (LogContext.log fn file line name sev msg ⟨true, false⟩).trace
        = [Event.rcutils_log ⟨fn, file, line⟩ (severityCode sev) name msg]
    ∧ freedImmediatelyAndUnused ⟨fn, file, line⟩
        (LogContext.log fn file line name sev msg ⟨true, false⟩).trace = true := by
  simp [LogContext.log, hfn, hfile, hname, hmsg, foreignCalls, Event.isForeign,
    freedImmediatelyAndUnused, usesLoc]

/-- Witness for C2 at the spec's example: emit("f", "file.ext", 42,
"logger", Warn, "hello") with the strings as byte lists. -/
theorem C2_emit_initialized_witness :
    (LogContext.log [102] [102, 105, 108, 101, 46, 101, 120, 116] 42
        [108, 111, 103, 103, 101, 114] LogSeverity.Warn [104, 101, 108, 108, 111]
        ⟨true, false⟩).outcome = Outcome.ok
    ∧ foreignCalls (LogContext.log [102] [102, 105, 108, 101, 46, 101, 120, 116] 42
        [108, 111, 103, 103, 101, 114] LogSeverity.Warn [104, 101, 108, 108, 111]
        ⟨true, false⟩).trace
        = [Event.rcutils_log ⟨[102], [102, 105, 108, 101, 46, 101, 120, 116], 42⟩
            (severityCode LogSeverity.Warn) [108, 111, 103, 103, 101, 114]
            [104, 101, 108, 108, 111]]
    ∧ freedImmediatelyAndUnused ⟨[102], [102, 105, 108, 101, 46, 101, 120, 116], 42⟩
        (LogContext.log [102] [102, 105, 108, 101, 46, 101, 120, 116] 42
          [108, 111, 103, 103, 101, 114] LogSeverity.Warn [104, 101, 108, 108, 111]
          ⟨true, false⟩).trace = true :=
  C2_emit_initialized [102] [102, 105, 108, 101, 46, 101, 120, 116] 42
    [108, 111, 103, 103, 101, 114] LogSeverity.Warn [104, 101, 108, 108, 111]
    (by decide) (by decide) (by decide) (by decide)

/-- Counterexample to C6 as stated: with a logger name containing an
embedded null, `set_logger_level` does not return a recoverable error — the
`CString::new(..).unwrap()` panics (outcome is a panic, not an error
return).  The zero-foreign-calls half of the claim does hold. -/
theorem C6_counterexample :
    (LogContext.set_logger_level [108, 0, 103] LogSeverity.Info (Except.ok ())
        ⟨true, false⟩).outcome = Outcome.panicked
    ∧ foreignCalls (LogContext.set_logger_level [108, 0, 103] LogSeverity.Info
        (Except.ok ()) ⟨true, false⟩).trace = [] := by
  decide

/-- C6 amended: a set_logger_level call whose logger name contains an
embedded null byte panics (the conversion failure is a panic that poisons
the state mutex, not a recoverable error return) and issues zero foreign
calls. -/
theorem C6_amended_nul_name_panics (nm : List Nat) (h : hasNulByte nm = true)
    (sev : LogSeverity) (fr : Except RclErr Unit) (s : LogState)
    (hp : s.poisoned = false) :
    (LogContext.set_logger_level nm sev fr s).outcome = Outcome.panicked
    ∧ foreignCalls (LogContext.set_logger_level nm sev fr s).trace = []
    ∧ (LogContext.set_logger_level nm sev fr s).state.poisoned = true := by
  obtain ⟨i, p⟩ := s
  simp only at hp
  subst hp
  simp [LogContext.set_logger_level, h, foreignCalls, Event.isForeign]

/-- Witness for the amended C6 at a concrete null-containing name. -/
theorem C6_amended_nul_name_panics_witness :
    (LogContext.set_logger_level [0] LogSeverity.Debug (Except.ok ())
        ⟨false, false⟩).outcome = Outcome.panicked
    ∧ foreignCalls (LogContext.set_logger_level [0] LogSeverity.Debug (Except.ok ())
        ⟨false, false⟩).trace = []
    ∧ (LogContext.set_logger_level [0] LogSeverity.Debug (Except.ok ())
        ⟨false, false⟩).state.poisoned = true :=
  C6_amended_nul_name_panics [0] (by decide) LogSeverity.Debug (Except.ok ())
    ⟨false, false⟩ rfl

/-- Counterexample to C7 as stated: while Uninitialized, set_logger_level is
not a no-op — it issues exactly one foreign set-level call (the code never
inspects the option before calling the foreign primitive). -/
theorem C7_counterexample :
    foreignCalls (LogContext.set_logger_level [108] LogSeverity.Warn (Except.ok ())
        ⟨false, false⟩).trace
      = [Event.rcutils_logging_set_logger_level [108] 30]
    ∧ (LogContext.set_logger_level [108] LogSeverity.Warn (Except.ok ())
        ⟨false, false⟩).outcome = Outcome.ok := by
  decide

/-- C7 amended: while Uninitialized, set_logger_level is not a lifecycle
error (it returns success whenever the foreign call succeeds) but it does
not degrade to a no-op: it invokes the foreign set-level primitive exactly
once with the converted name and mapped severity code, leaving the state
unchanged. -/
theorem C7_amended_uninit_set_level (nm : List Nat) (h : hasNulByte nm = false)
    (sev : LogSeverity) (fr : Except RclErr Unit) :
    foreignCalls (LogContext.set_logger_level nm sev fr ⟨false, false⟩).trace
        = [Event.rcutils_logging_set_logger_level nm (severityCode sev)]
    ∧ (fr = Except.ok () →
        (LogContext.set_logger_level nm sev fr ⟨false, false⟩).outcome = Outcome.ok)
    ∧ (LogContext.set_logger_level nm sev fr ⟨false, false⟩).state = ⟨false, false⟩ := by
  cases fr <;> simp [LogContext.set_logger_level, h, foreignCalls, Event.isForeign]

/-- Witness for the amended C7 at the name "l". -/
theorem C7_amended_uninit_set_level_witness :
    foreignCalls (LogContext.set_logger_level [108] LogSeverity.Error (Except.ok ())
        ⟨false, false⟩).trace
        = [Event.rcutils_logging_set_logger_level [108]
            (severityCode LogSeverity.Error)]
    ∧ (Except.ok () = (Except.ok () : Except RclErr Unit) →
        (LogContext.set_logger_level [108] LogSeverity.Error (Except.ok ())
          ⟨false, false⟩).outcome = Outcome.ok)
    ∧ (LogContext.set_logger_level [108] LogSeverity.Error (Except.ok ())
        ⟨false, false⟩).state = ⟨false, false⟩ :=
  C7_amended_uninit_set_level [108] (by decide) LogSeverity.Error (Except.ok ())

/-- C8: in every execution of init the lock discipline holds — the state
lock is acquired first, the context lock only while the state lock is held,
and the context lock is released before the state lock — and no other
operation of the subsystem (drop, set_logger_level, log) ever touches the
context lock at all, so no code path acquires the context lock before the
state lock. -/
theorem C8_lock_order (cr fr lr : Except RclErr Unit) (s1 s2 s3 s4 : LogState)
    (nm fn file name msg : List Nat) (line : Nat) (sevA sevB : LogSeverity) :
    locksOk (LogContext.init cr s1).trace false false = true
    ∧ noContextLock (LogContext.drop fr s2).trace = true
    ∧ noContextLock (LogContext.set_logger_level nm sevA lr s3).trace = true
    ∧ noContextLock (LogContext.log fn file line name sevB msg s4).trace = true := by
  obtain ⟨i1, p1⟩ := s1
  obtain ⟨i2, p2⟩ := s2
  obtain ⟨i3, p3⟩ := s3
  obtain ⟨i4, p4⟩ := s4
  refine ⟨?_, ?_, ?_, ?_⟩
  · cases p1 <;> cases i1 <;> cases cr <;> simp [LogContext.init, locksOk]
  · cases p2 <;> cases i2 <;> cases fr <;>
      simp [LogContext.drop, noContextLock, List.all]
  · cases p3 <;> cases hn : hasNulByte nm <;> cases lr <;>
      simp [LogContext.set_logger_level, hn, noContextLock, List.all]
  · cases p4 <;> cases i4 <;> cases h1 : hasNulByte fn <;> cases h2 : hasNulByte file <;>
      cases h3 : hasNulByte name <;> cases h4 : hasNulByte msg <;>
      simp [LogContext.log, h1, h2, h3, h4, noContextLock, List.all]

/-- C10: a log call that panics on an embedded null in the message while
Initialized poisons the state mutex, and afterwards every public operation
— init, set_logger_level, log, and the guard destruction — panics when it
unwraps the poisoned lock, whichever poisoned state it finds. -/
theorem C10_poisoned_lock (fn file name msg nm : List Nat) (line : Nat)
    (sevA sevB : LogSeverity) (cr fr lr : Except RclErr Unit)
    (hfn : hasNulByte fn = false) (hfile : hasNulByte file = false)
    (hmsg : hasNulByte msg = true) :
    (LogContext.log fn file line name sevA msg ⟨true, false⟩).outcome = Outcome.panicked
    ∧ (LogContext.log fn file line name sevA msg ⟨true, false⟩).state = ⟨true, true⟩
    ∧ (LogContext.init cr ⟨true, true⟩).outcome = Outcome.panicked
    ∧ (LogContext.set_logger_level nm sevB lr ⟨true, true⟩).outcome = Outcome.panicked
    ∧ (LogContext.log fn file line name sevA msg ⟨true, true⟩).outcome = Outcome.panicked
    ∧ (LogContext.drop fr ⟨true, true⟩).outcome = Outcome.panicked
    ∧ (LogContext.init cr ⟨false, true⟩).outcome = Outcome.panicked
    ∧ (LogContext.set_logger_level nm sevB lr ⟨false, true⟩).outcome = Outcome.panicked
    ∧ (LogContext.log fn file line name sevA msg ⟨false, true⟩).outcome = Outcome.panicked
    ∧ (LogContext.drop fr ⟨false, true⟩).outcome = Outcome.panicked := by
  refine ⟨?_, ?_, ?_, ?_, ?_, ?_, ?_, ?_, ?_, ?_⟩ <;>
    simp [LogContext.log, LogContext.init, LogContext.set_logger_level, LogContext.drop,
      hfn, hfile, hmsg]

/-- Witness for C10 at a message containing a null byte and otherwise clean
arguments. -/
theorem C10_poisoned_lock_witness :
    (LogContext.log [102] [103] 7 [110] LogSeverity.Warn [0] ⟨true, false⟩).outcome
        = Outcome.panicked
    ∧ (LogContext.log [102] [103] 7 [110] LogSeverity.Warn [0] ⟨true, false⟩).state
        = ⟨true, true⟩
    ∧ (LogContext.init (Except.ok ()) ⟨true, true⟩).outcome = Outcome.panicked
    ∧ (LogContext.set_logger_level [108] LogSeverity.Info (Except.ok ())
        ⟨true, true⟩).outcome = Outcome.panicked
    ∧ (LogContext.log [102] [103] 7 [110] LogSeverity.Warn [0] ⟨true, true⟩).outcome
        = Outcome.panicked
    ∧ (LogContext.drop (Except.ok ()) ⟨true, true⟩).outcome = Outcome.panicked
    ∧ (LogContext.init (Except.ok ()) ⟨false, true⟩).outcome = Outcome.panicked
    ∧ (LogContext.set_logger_level [108] LogSeverity.Info (Except.ok ())
        ⟨false, true⟩).outcome = Outcome.panicked
    ∧ (LogContext.log [102] [103] 7 [110] LogSeverity.Warn [0] ⟨false, true⟩).outcome
        = Outcome.panicked
    ∧ (LogContext.drop (Except.ok ()) ⟨false, true⟩).outcome = Outcome.panicked :=
  C10_poisoned_lock [102] [103] [110] [0] [108] 7 LogSeverity.Warn LogSeverity.Info
    (Except.ok ()) (Except.ok ()) (Except.ok ()) (by decide) (by decide) (by decide)

end RclrsLog
